import Mathlib

/-!
Shallow embedding of the four statistical models of the `ai-driven-bi`
prediction pipeline, translated from the JavaScript sources:

* `forecastSales`       — `src/src/services/inventoryService.js`
* `scoreCustomerRisk`   — `src/ml/models/risk-scorer.js`
* `forecastCashFlow`    — cashflow predictor module
* `optimizeInventory`   — `src/ml/models/inventory-optimizer.js`

Modelling conventions, used throughout:

* JS `number` values that stay finite are modelled as exact rationals `ℚ`
  (floating-point rounding error is not modelled).  In the one place where
  the code can actually divide by zero (the sales forecaster's average
  unit price), numbers are modelled by `JsNum`, which adds IEEE-754
  special values `NaN`, `Infinity`, `-Infinity` with JS semantics.
* A JS object used as a dictionary keyed by non-numeric strings preserves
  insertion order of keys; `Object.keys`/`Object.entries` therefore list
  keys in order of first appearance.  `firstKeys` models this.
* `YYYY-MM` month strings are modelled as linearized month numbers
  (`year*12 + month`); lexicographic order on the strings coincides with
  numeric order on the linearization, and JS `Date(year, mon-1+i, 1)`
  arithmetic is exactly `+ i` on the linearization.
* `Array.prototype.sort` on pairwise-distinct keys is modelled by
  `List.insertionSort`: the sorted arrangement of a duplicate-free list is
  unique, so the choice of algorithm does not matter.
* `Math.round x` is `⌊x + 1/2⌋` (round half toward +∞), which is JS
  behaviour for all finite inputs.
* Calls to `Math.sqrt` / `Math.exp` / `simple-statistics`'
  `standardDeviation` produce irrational reals; the models that consume
  them only need order-of-magnitude facts about them, so those functions
  are passed in as parameters (`sq`, `ex`, `sd`) and the theorems carry
  the corresponding analytic facts as hypotheses.
-/

/-- JS `Math.round` on a finite number: round half toward `+∞`. -/
def jround (q : ℚ) : ℤ := ⌊q + 1/2⌋

/-- `Math.round(q * 10) / 10` — round to 1 decimal. -/
def round1 (q : ℚ) : ℚ := (jround (q * 10) : ℚ) / 10

/-- `Math.round(q * 100) / 100` — round to 2 decimals. -/
def round2 (q : ℚ) : ℚ := (jround (q * 100) : ℚ) / 100

/-- `Math.round(q * 1000) / 1000` — round to 3 decimals. -/
def round3 (q : ℚ) : ℚ := (jround (q * 1000) : ℚ) / 1000

/-- `Math.round(q * 10000) / 10000` — round to 4 decimals. -/
def round4 (q : ℚ) : ℚ := (jround (q * 10000) : ℚ) / 10000

/-- Auxiliary for `firstKeys`: keys of `l` in first-appearance order,
skipping keys already in `seen`. -/
def firstKeysAux {α κ : Type} [DecidableEq κ] (key : α → κ) : List α → List κ → List κ
  | [], _ => []
  | a :: l, seen =>
      if key a ∈ seen then firstKeysAux key l seen
      else key a :: firstKeysAux key l (key a :: seen)

/-- The keys of a JS object populated by one pass over `l`
(`obj[key(a)] = …` for each `a`), in `Object.keys` order: order of first
appearance, each key once. -/
def firstKeys {α κ : Type} [DecidableEq κ] (key : α → κ) (l : List α) : List κ :=
  firstKeysAux key l []

/-- `Math.min(...values)` over a nonempty list (head taken as start). -/
def listMin : List ℚ → ℚ
  | [] => 0
  | x :: xs => xs.foldl min x

/-- `Math.max(...values)` over a nonempty list (head taken as start). -/
def listMax : List ℚ → ℚ
  | [] => 0
  | x :: xs => xs.foldl max x

/-- `simple-statistics` `mean`: sum divided by length (callers below only
apply it to nonempty lists). -/
def ssMean (l : List ℚ) : ℚ := l.sum / l.length

/-- IEEE-754-style JS `number` over exact rationals: finite values plus
`NaN` and the two infinities.  Negative zero is not distinguished from
zero (no computation below ever produces a `-0` denominator). -/
inductive JsNum where
  | nan : JsNum
  | inf : JsNum
  | ninf : JsNum
  | num : ℚ → JsNum
deriving DecidableEq, Repr

namespace JsNum

/-- JS unary minus. -/
def neg : JsNum → JsNum
  | nan => nan
  | inf => ninf
  | ninf => inf
  | num q => num (-q)

/-- JS `+`. -/
def add : JsNum → JsNum → JsNum
  | nan, _ => nan
  | _, nan => nan
  | inf, ninf => nan
  | ninf, inf => nan
  | inf, _ => inf
  | _, inf => inf
  | ninf, _ => ninf
  | _, ninf => ninf
  | num a, num b => num (a + b)

/-- JS `-`. -/
def sub (a b : JsNum) : JsNum := add a (neg b)

/-- JS `*`. -/
def mul : JsNum → JsNum → JsNum
  | nan, _ => nan
  | _, nan => nan
  | inf, inf => inf
  | inf, ninf => ninf
  | ninf, inf => ninf
  | ninf, ninf => inf
  | inf, num b => if 0 < b then inf else if b < 0 then ninf else nan
  | num a, inf => if 0 < a then inf else if a < 0 then ninf else nan
  | ninf, num b => if 0 < b then ninf else if b < 0 then inf else nan
  | num a, ninf => if 0 < a then ninf else if a < 0 then inf else nan
  | num a, num b => num (a * b)

/-- JS `/` (zero denominators behave as `+0`). -/
def div : JsNum → JsNum → JsNum
  | nan, _ => nan
  | _, nan => nan
  | inf, inf => nan
  | inf, ninf => nan
  | ninf, inf => nan
  | ninf, ninf => nan
  | inf, num b => if b < 0 then ninf else inf
  | ninf, num b => if b < 0 then inf else ninf
  | num _, inf => num 0
  | num _, ninf => num 0
  | num a, num b =>
      if b = 0 then (if a = 0 then nan else if 0 < a then inf else ninf)
      else num (a / b)

/-- JS `<` (false whenever either side is `NaN`). -/
def ltb : JsNum → JsNum → Bool
  | nan, _ => false
  | _, nan => false
  | inf, _ => false
  | ninf, inf => true
  | ninf, ninf => false
  | ninf, num _ => true
  | num _, inf => true
  | num _, ninf => false
  | num a, num b => decide (a < b)

/-- JS `Math.max` of two values (`NaN` if either is `NaN`). -/
def jmax : JsNum → JsNum → JsNum
  | nan, _ => nan
  | _, nan => nan
  | inf, _ => inf
  | _, inf => inf
  | ninf, b => b
  | a, ninf => a
  | num a, num b => num (max a b)

/-- JS `Math.round` (identity on `NaN` and infinities). -/
def rnd : JsNum → JsNum
  | nan => nan
  | inf => inf
  | ninf => ninf
  | num q => num (jround q : ℚ)

/-- `Math.round(x * 100) / 100` in JS arithmetic. -/
def round2 (x : JsNum) : JsNum := div (rnd (mul x (num 100))) (num 100)

/-- `Math.round(x * 10000) / 10000` in JS arithmetic. -/
def round4 (x : JsNum) : JsNum := div (rnd (mul x (num 10000))) (num 10000)

/-- Sum of a list in JS arithmetic (`reduce((s, x) => s + x, 0)`). -/
def lsum (l : List JsNum) : JsNum := l.foldl add (num 0)

/-- `Math.pow(x, 2)` in JS arithmetic. -/
def pow2 (x : JsNum) : JsNum := mul x x

end JsNum

namespace SalesForecaster

/-- A transaction as read by `forecastSales`: `product_id`, the calendar
month of `transaction_date` (linearized), and the parsed
`quantity_liters` / `total_amount` (`parseFloat(…) || 0`). -/
structure Txn where
  product_id : String
  month : ℕ
  quantity : ℚ
  total_amount : ℚ
deriving DecidableEq, Repr

/-- A catalog product; `forecastSales` only consults its `id`. -/
structure Product where
  id : String
deriving DecidableEq, Repr

/-- One `productMonthly[pid][month]` bucket: summed quantity, summed
revenue, and transaction count for that product and month. -/
structure MonthAgg where
  quantity : ℚ
  revenue : ℚ
  count : ℕ
deriving DecidableEq, Repr

/-- The bucket `productMonthly[pid][m]`, computed from the product's
transactions `pts` (those with `product_id = pid`). -/
def monthAgg (pts : List Txn) (m : ℕ) : MonthAgg :=
  let mts := pts.filter (fun t => t.month = m)
  { quantity := (mts.map (fun t => t.quantity)).sum
    revenue := (mts.map (fun t => t.total_amount)).sum
    count := mts.length }

/-- `allMonths`: the distinct transaction months, sorted ascending
(`[...new Set(map(substring(0,7)))].sort()`). -/
def allMonthsOf (ts : List Txn) : List ℕ :=
  (firstKeys (fun t => t.month) ts).insertionSort (· ≤ ·)

/-- One output row of the sales forecaster. -/
structure Row where
  product_id : String
  prediction_month : ℕ
  predicted_quantity : JsNum
  predicted_revenue : JsNum
  confidence_score : JsNum
  model_used : String
  trend_direction : String
  growth_rate : JsNum
deriving DecidableEq, Repr

/-- `simple-statistics` `linearRegression`: for a single point, slope 0
and intercept `y`; otherwise the closed-form least-squares slope
`(n·Σxy − Σx·Σy) / (n·Σx² − (Σx)²)` and intercept
`Σy/n − (m·Σx)/n`, in JS arithmetic (the divisions can produce
`NaN`/`±Infinity` when the denominator is 0). -/
def linearRegression (data : List (ℕ × ℚ)) : JsNum × JsNum :=
  match data with
  | [p] => (JsNum.num 0, JsNum.num p.2)
  | _ =>
      let n : ℚ := data.length
      let sumX : ℚ := (data.map (fun p => (p.1 : ℚ))).sum
      let sumY : ℚ := (data.map (fun p => p.2)).sum
      let sumXX : ℚ := (data.map (fun p => (p.1 : ℚ) * (p.1 : ℚ))).sum
      let sumXY : ℚ := (data.map (fun p => (p.1 : ℚ) * p.2)).sum
      let m := JsNum.div (JsNum.num (n * sumXY - sumX * sumY))
                         (JsNum.num (n * sumXX - sumX * sumX))
      let b := JsNum.sub (JsNum.div (JsNum.num sumY) (JsNum.num n))
                         (JsNum.div (JsNum.mul m (JsNum.num sumX)) (JsNum.num n))
      (m, b)

/-- `simple-statistics` `linearRegressionLine`: `x ↦ b + m·x`. -/
def regressionLine (m b : JsNum) (x : ℕ) : JsNum :=
  JsNum.add b (JsNum.mul m (JsNum.num (x : ℚ)))

/-- `simple-statistics` `rSquared(data, line)`:
`1` for fewer than 2 points, else `1 − err/SST` where `err` is the sum of
squared residuals against the fitted line and `SST` the sum of squared
deviations from the mean (JS arithmetic: `SST = 0` gives `NaN`/`±∞`). -/
def rSquared (data : List (ℕ × ℚ)) (m b : JsNum) : JsNum :=
  if data.length < 2 then JsNum.num 1
  else
    let average : ℚ := (data.map (fun p => p.2)).sum / data.length
    let sumOfSquares : ℚ := (data.map (fun p => (average - p.2) ^ 2)).sum
    let err := JsNum.lsum (data.map (fun p =>
      JsNum.pow2 (JsNum.sub (JsNum.num p.2) (regressionLine m b p.1))))
    JsNum.sub (JsNum.num 1) (JsNum.div err (JsNum.num sumOfSquares))

/-- The `avgUnitPrice` computation of `forecastSales`
(inventoryService.js lines 551–556), verbatim: the three most recent
months of the product (entries sorted descending, `slice(0, 3)`), each
contributing `d.count > 0 ? d.revenue / d.quantity : 0`, the sum divided
by the number of recent months.  Note the guard is on `count`, not on
`quantity`: a bucket with transactions summing to quantity 0 still
divides by zero. -/
def codeAvgUnitPrice (pts : List Txn) : JsNum :=
  let recent := ((firstKeys (fun t : Txn => t.month) pts).insertionSort (· ≥ ·)).take 3
  JsNum.div
    (JsNum.lsum (recent.map (fun mo =>
      let d := monthAgg pts mo
      if 0 < d.count then JsNum.div (JsNum.num d.revenue) (JsNum.num d.quantity)
      else JsNum.num 0)))
    (JsNum.num (recent.length : ℚ))

/-- The average unit price as the SPEC (§4.1) describes it: the mean of
(monthly revenue / monthly quantity) over the 3 most recent months with
data, where months whose quantity is 0 are skipped; 0 if every month is
skipped.  Second definition for the refinement claim C1, written from the
spec's words, to be compared against `codeAvgUnitPrice`. -/
def specAvgUnitPrice (pts : List Txn) : ℚ :=
  let recent := ((firstKeys (fun t : Txn => t.month) pts).insertionSort (· ≥ ·)).take 3
  let usable := recent.filter (fun mo => (monthAgg pts mo).quantity ≠ 0)
  if usable.length = 0 then 0
  else (usable.map (fun mo => (monthAgg pts mo).revenue / (monthAgg pts mo).quantity)).sum
         / (usable.length : ℚ)

/-- The rows `forecastSales` emits for one product already known to be in
the catalog: its month buckets in first-appearance order, mapped through
the shared month index, then regression / R² / unit price / 3-month
extrapolation exactly as in the source. -/
def productRows (allMonths : List ℕ) (pid : String) (pts : List Txn) : List Row :=
  let pmonths := firstKeys (fun t : Txn => t.month) pts
  let dataPoints := (pmonths.filter (fun mo => mo ∈ allMonths)).map
      (fun mo => (allMonths.indexOf mo, (monthAgg pts mo).quantity))
  if dataPoints.length < 3 then []
  else
    let mb := linearRegression dataPoints
    let r2 := rSquared dataPoints mb.1 mb.2
    let actual := dataPoints.map (fun p => p.2)
    let avgUnitPrice := codeAvgUnitPrice pts
    let avgQuantity := ssMean actual
    let growthRate := if 0 < avgQuantity then JsNum.div mb.1 (JsNum.num avgQuantity)
                      else JsNum.num 0
    let lastIndex := allMonths.length - 1
    let lastMonth := allMonths.getLastD 0
    (List.range 3).map (fun j =>
      let i := j + 1
      let futureIndex := lastIndex + i
      let predictedQty := JsNum.jmax (JsNum.num 0) (regressionLine mb.1 mb.2 futureIndex)
      let predictedRevenue := JsNum.mul predictedQty avgUnitPrice
      { product_id := pid
        prediction_month := lastMonth + i
        predicted_quantity := JsNum.round2 predictedQty
        predicted_revenue := JsNum.round2 predictedRevenue
        confidence_score := JsNum.round2 (JsNum.jmax (JsNum.num 0) r2)
        model_used := "linear_regression"
        trend_direction :=
          if JsNum.ltb (JsNum.num 0) mb.1 then "up"
          else if JsNum.ltb mb.1 (JsNum.num 0) then "down" else "stable"
        growth_rate := JsNum.round4 growthRate })

/-- `forecastSales(transactions, products)`: iterate the products that
appear in transactions (`Object.entries(productMonthly)` order), skip ids
missing from the catalog (`if (!product) continue`), and emit each
eligible product's rows. -/
def forecastSales (transactions : List Txn) (products : List Product) : List Row :=
  let allMonths := allMonthsOf transactions
  let pids := firstKeys (fun t : Txn => t.product_id) transactions
  pids.flatMap (fun pid =>
    if pid ∈ products.map Product.id then
      productRows allMonths pid (transactions.filter (fun t => t.product_id = pid))
    else [])

/-- Number of distinct calendar months in a product's transaction
history. -/
def distinctMonthCount (ts : List Txn) (pid : String) : ℕ :=
  (firstKeys (fun t : Txn => t.month) (ts.filter (fun t => t.product_id = pid))).length

/-- Claim C2's scenario: 4 consecutive months of one product with
monthly quantities 100, 110, 120, 130 at unit price 10. -/
def c2txns : List Txn :=
  [⟨"P", 100, 100, 1000⟩, ⟨"P", 101, 110, 1100⟩, ⟨"P", 102, 120, 1200⟩, ⟨"P", 103, 130, 1300⟩]

/-- Claim C2's catalog: the single product. -/
def c2prods : List Product := [⟨"P"⟩]

/-- Claim C1's failing input: an eligible product (4 distinct months)
whose most recent month has a transaction whose quantity parses to 0
(`parseFloat(…) || 0`) while its amount is 50. -/
def c1txns : List Txn :=
  [⟨"P", 100, 10, 20⟩, ⟨"P", 101, 20, 60⟩, ⟨"P", 102, 30, 90⟩, ⟨"P", 103, 0, 50⟩]

/-- Claim C1's catalog. -/
def c1prods : List Product := [⟨"P"⟩]

end SalesForecaster

namespace CashFlow

/-- A transaction as read by `forecastCashFlow`: month of
`transaction_date` (linearized), parsed `total_amount` and
`outstanding_amount`, and the `payment_status` string. -/
structure Txn where
  month : ℕ
  total_amount : ℚ
  outstanding_amount : ℚ
  payment_status : String
deriving DecidableEq, Repr

/-- One `monthlyData[month]` bucket: revenue, collected (`paid`) amount,
outstanding, and transaction count. -/
structure MonthData where
  revenue : ℚ
  paid : ℚ
  outstanding : ℚ
  count : ℕ
deriving DecidableEq, Repr

/-- The bucket for month `m`: revenue sums `total_amount`; `paid` adds
the full amount for `Paid` rows and `max(0, total − outstanding)` for all
other rows. -/
def monthData (ts : List Txn) (m : ℕ) : MonthData :=
  let mts := ts.filter (fun t => t.month = m)
  { revenue := (mts.map (fun t => t.total_amount)).sum
    paid := (mts.map (fun t =>
        if t.payment_status = "Paid" then t.total_amount
        else max 0 (t.total_amount - t.outstanding_amount))).sum
    outstanding := (mts.map (fun t => t.outstanding_amount)).sum
    count := mts.length }

/-- `sortedMonths`: distinct transaction months, ascending. -/
def sortedMonthsOf (ts : List Txn) : List ℕ :=
  (firstKeys (fun t : Txn => t.month) ts).insertionSort (· ≤ ·)

/-- The per-month collection-rate series: `paid/revenue`, 0 when revenue
is not positive. -/
def collectionRates (ts : List Txn) : List ℚ :=
  (sortedMonthsOf ts).map (fun m =>
    if 0 < (monthData ts m).revenue then (monthData ts m).paid / (monthData ts m).revenue
    else 0)

/-- The per-month revenue series. -/
def revenueSeries (ts : List Txn) : List ℚ :=
  (sortedMonthsOf ts).map (fun m => (monthData ts m).revenue)

/-- The tail of the simple-exponential-smoothing recurrence: smoothed
values `α·x + (1−α)·prev` pushed one by one. -/
def sesFrom (α prev : ℚ) : List ℚ → List ℚ
  | [] => []
  | x :: xs => (α * x + (1 - α) * prev) :: sesFrom (α) (α * x + (1 - α) * prev) xs

/-- `exponentialSmoothing(series, α).level` (= its `forecast`): the last
smoothed value; a singleton series returns its element, an empty series
0. -/
def sesLevel (α : ℚ) : List ℚ → ℚ
  | [] => 0
  | x :: xs => (sesFrom α x xs).getLastD x

/-- Result record of `holtSmoothing`. -/
structure HoltResult where
  forecasts : List ℚ
  level : ℚ
  trend : ℚ
  smoothed : List ℚ
deriving DecidableEq, Repr

/-- The loop body of `holtSmoothing`: starting from `(level, trend)`,
consume the remaining actuals, returning the final level, final trend,
and the `level' + trend'` values pushed to `smoothed`. -/
def holtGo (α β : ℚ) (level trend : ℚ) : List ℚ → ℚ × ℚ × List ℚ
  | [] => (level, trend, [])
  | x :: xs =>
      let prevLevel := level
      let level' := α * x + (1 - α) * (prevLevel + trend)
      let trend' := β * (level' - prevLevel) + (1 - β) * trend
      let r := holtGo α β level' trend' xs
      (r.1, r.2.1, (level' + trend') :: r.2.2)

/-- `holtSmoothing(series, α, β)` (Holt's linear / double exponential
smoothing): level initialized to the first value, trend to
second − first; then the recurrence of `holtGo`.  Forecast `h` steps
ahead is `level + h·trend` for `h = 1, 2, 3`.  (In the source the
short-series branch returns no `smoothed` field; it is never consumed —
`forecastCashFlow` requires ≥ 3 months — and is modelled as `[]`.) -/
def holtSmoothing (α β : ℚ) : List ℚ → HoltResult
  | [] => { forecasts := [0], level := 0, trend := 0, smoothed := [] }
  | [x] => { forecasts := [x], level := x, trend := 0, smoothed := [] }
  | x₀ :: x₁ :: rest =>
      let r := holtGo α β x₀ (x₁ - x₀) (x₁ :: rest)
      { forecasts := [r.1 + 1 * r.2.1, r.1 + 2 * r.2.1, r.1 + 3 * r.2.1]
        level := r.1
        trend := r.2.1
        smoothed := x₀ :: r.2.2 }

/-- One output row of the cash-flow predictor. -/
structure Row where
  forecast_month : ℕ
  expected_inflow : ℚ
  best_case_inflow : ℚ
  worst_case_inflow : ℚ
  most_likely_inflow : ℚ
  expected_delay : ℚ
  collection_rate : ℚ
  confidence_score : ℚ
  model_used : String
deriving DecidableEq, Repr

/-- `forecastCashFlow(transactions)`.  `σ` stands for
`ss.standardDeviation(collectionRates)` — the population standard
deviation, an irrational real passed in as a parameter (the claims about
this function only assume `0 ≤ σ`). -/
def forecastCashFlow (ts : List Txn) (σ : ℚ) : List Row :=
  let sortedMonths := sortedMonthsOf ts
  if sortedMonths.length < 3 then []
  else
    let revenue := revenueSeries ts
    let rates := collectionRates ts
    let revenueHolt := holtSmoothing (3/10) (1/10) revenue
    let avgCollectionRate := sesLevel (3/10) rates
    let revenueSmoothed := (holtSmoothing (3/10) (1/10) revenue).smoothed
    let errors := (List.range revenue.length).map (fun i =>
      let actual := revenue.getD i 0
      let pred := if i < revenueSmoothed.length then revenueSmoothed.getD i 0 else actual
      if 0 < actual then |actual - pred| / actual else 0)
    let mape := ssMean errors
    let confidence := round2 (max 0 (min 99 ((1 - mape) * 100)))
    let lastMonth := sortedMonths.getLastD 0
    (List.range 3).map (fun i =>
      let forecastMonth := lastMonth + i + 1
      let predictedRevenue := max 0 (revenueHolt.forecasts.getD i 0)
      let bestRate := min 1 (avgCollectionRate + σ)
      let worstRate := max 0 (avgCollectionRate - σ)
      let likelyRate := avgCollectionRate
      { forecast_month := forecastMonth
        expected_inflow := round2 (predictedRevenue * likelyRate)
        best_case_inflow := round2 (predictedRevenue * bestRate)
        worst_case_inflow := round2 (predictedRevenue * worstRate)
        most_likely_inflow := round2 (predictedRevenue * likelyRate)
        expected_delay := round2 (predictedRevenue * (1 - likelyRate))
        collection_rate := round4 likelyRate
        confidence_score := confidence
        model_used := "holt_exponential_smoothing" })

/-- One step of Holt's recurrence, as a fold function on the
(level, trend) state: used to relate the source loop and the spec
recurrence. -/
def holtStep (α β : ℚ) (s : ℚ × ℚ) (x : ℚ) : ℚ × ℚ :=
  let level := α * x + (1 - α) * (s.1 + s.2)
  (level, β * (level - s.1) + (1 - β) * s.2)

/-- The level sequence of the SPEC's Holt recurrence (§4.3, claim C7),
written from the spec's words: `level[0] = first value`,
`trend[0] = second − first`,
`level[i] = α·actual[i] + (1−α)(level[i−1] + trend[i−1])`,
`trend[i] = β(level[i] − level[i−1]) + (1−β)·trend[i−1]`.
Returns `(level[i], trend[i])`. -/
def specHoltPair (α β : ℚ) (a : List ℚ) : ℕ → ℚ × ℚ
  | 0 => (a.getD 0 0, a.getD 1 0 - a.getD 0 0)
  | i + 1 =>
      let p := specHoltPair α β a i
      let level := α * a.getD (i + 1) 0 + (1 - α) * (p.1 + p.2)
      (level, β * (level - p.1) + (1 - β) * p.2)

/-- A 3-month concrete input for the cash-flow witnesses. -/
def c3txns : List Txn :=
  [⟨100, 10, 0, "Paid"⟩, ⟨101, 20, 5, "Partial"⟩, ⟨102, 40, 40, "Pending"⟩]

end CashFlow

namespace RiskScorer

/-- A transaction as read by `scoreCustomerRisk`.  Dates are modelled as
rational day numbers (the code converts millisecond differences to days);
nullable date fields are `Option`s (JS truthiness test). -/
structure Txn where
  customer_id : String
  transaction_date : ℚ
  total_amount : ℚ
  outstanding_amount : ℚ
  payment_status : String
  payment_due_date : Option ℚ
  payment_received_date : Option ℚ
deriving DecidableEq, Repr

/-- A customer; the scorer reads only `id` and `credit_limit`. -/
structure Customer where
  id : String
  credit_limit : ℚ
deriving DecidableEq, Repr

/-- The raw per-customer features plus the `_`-prefixed raw data the
second loop reads. -/
structure Features where
  overdue_ratio : ℚ
  outstanding_ratio : ℚ
  avg_payment_delay : ℚ
  credit_utilization : ℚ
  recency_score : ℚ
  partial_payment_ratio : ℚ
  overdueCount : ℕ
  totalOutstanding : ℚ
  totalRevenue : ℚ
  totalTxns : ℕ
deriving DecidableEq, Repr

/-- Feature weight for `overdue_ratio`. -/
def wOverdue : ℚ := 0.25

/-- Feature weight for `outstanding_ratio`. -/
def wOutstanding : ℚ := 0.20

/-- Feature weight for `avg_payment_delay`. -/
def wDelay : ℚ := 0.20

/-- Feature weight for `credit_utilization`. -/
def wUtilization : ℚ := 0.15

/-- Feature weight for `recency_score`. -/
def wRecency : ℚ := 0.10

/-- Feature weight for `partial_payment_ratio`. -/
def wPartial : ℚ := 0.10

/-- The `WEIGHTS` table of risk-scorer.js. -/
def WEIGHTS : List (String × ℚ) :=
  [("overdue_ratio", wOverdue), ("outstanding_ratio", wOutstanding),
   ("avg_payment_delay", wDelay), ("credit_utilization", wUtilization),
   ("recency_score", wRecency), ("partial_payment_ratio", wPartial)]

/-- The first loop's body: raw features of one customer from their
transactions (`txns` nonempty at every call site). -/
def computeFeatures (now : ℚ) (c : Customer) (txns : List Txn) : Features :=
  let totalTxns := txns.length
  let overdueCount := (txns.filter (fun t => t.payment_status = "Overdue")).length
  let totalRevenue := (txns.map (fun t => t.total_amount)).sum
  let totalOutstanding := (txns.map (fun t => t.outstanding_amount)).sum
  let delays := txns.filterMap (fun t =>
    match t.payment_received_date, t.payment_due_date with
    | some paid, some due => some (max 0 (paid - due))
    | _, _ => none)
  let avgDelay := if 0 < delays.length then ssMean delays else 0
  let creditLimit := if c.credit_limit = 0 then 1 else c.credit_limit
  let lastTxnDate := listMax (txns.map (fun t => t.transaction_date))
  { overdue_ratio := (overdueCount : ℚ) / (totalTxns : ℚ)
    outstanding_ratio := if 0 < totalRevenue then totalOutstanding / totalRevenue else 0
    avg_payment_delay := avgDelay
    credit_utilization := min 1 (totalOutstanding / creditLimit)
    recency_score := min 1 ((now - lastTxnDate) / 180)
    partial_payment_ratio :=
      ((txns.filter (fun t => t.payment_status = "Partial")).length : ℚ) / (totalTxns : ℚ)
    overdueCount := overdueCount
    totalOutstanding := totalOutstanding
    totalRevenue := totalRevenue
    totalTxns := totalTxns }

/-- Min-max normalization of one value against the population's values
for that feature: `range > 0 ? (v − min)/range : 0`. -/
def normalizeVal (vals : List ℚ) (v : ℚ) : ℚ :=
  let mn := listMin vals
  let mx := listMax vals
  if 0 < mx - mn then (v - mn) / (mx - mn) else 0

/-- `customerMap` lookup (object assignment: the last record with a
given id wins). -/
def lookupCustomer (cs : List Customer) (cid : String) : Option Customer :=
  cs.reverse.find? (fun c => c.id = cid)

/-- `customerFeatures` as an association list in `Object.keys` order:
customers that appear in transactions, are in the customer map, and have
at least one transaction. -/
def featureEntries (now : ℚ) (ts : List Txn) (cs : List Customer) :
    List (String × Features) :=
  (firstKeys (fun t : Txn => t.customer_id) ts).filterMap (fun cid =>
    match lookupCustomer cs cid with
    | none => none
    | some c =>
        let txns := ts.filter (fun t => t.customer_id = cid)
        if txns.length = 0 then none else some (cid, computeFeatures now c txns))

/-- The normalized feature vector retained on the output row. -/
structure NormFeatures where
  overdue_ratio : ℚ
  outstanding_ratio : ℚ
  avg_payment_delay : ℚ
  credit_utilization : ℚ
  recency_score : ℚ
  partial_payment_ratio : ℚ
deriving DecidableEq, Repr

/-- One output row of the risk scorer. -/
structure Row where
  customer_id : String
  risk_score : ℚ
  risk_level : String
  payment_delay_probability : ℚ
  expected_delay_days : ℚ
  overdue_invoice_count : ℕ
  total_outstanding : ℚ
  credit_utilization : ℚ
  features : NormFeatures
deriving DecidableEq, Repr

/-- The second loop's body: normalize against the population, weighted
sum, sigmoid (`Math.exp` passed in as `ex`), 0–100 score, level bands,
and expected delay. -/
def scoreRow (ex : ℚ → ℚ) (entries : List (String × Features))
    (e : String × Features) : Row :=
  let f := e.2
  let nOverdue := normalizeVal (entries.map (fun q => q.2.overdue_ratio)) f.overdue_ratio
  let nOutstanding := normalizeVal (entries.map (fun q => q.2.outstanding_ratio)) f.outstanding_ratio
  let nDelay := normalizeVal (entries.map (fun q => q.2.avg_payment_delay)) f.avg_payment_delay
  let nUtilization := normalizeVal (entries.map (fun q => q.2.credit_utilization)) f.credit_utilization
  let nRecency := normalizeVal (entries.map (fun q => q.2.recency_score)) f.recency_score
  let nPartial := normalizeVal (entries.map (fun q => q.2.partial_payment_ratio)) f.partial_payment_ratio
  let weightedSum := nOverdue * wOverdue + nOutstanding * wOutstanding + nDelay * wDelay
      + nUtilization * wUtilization + nRecency * wRecency + nPartial * wPartial
  let sigmoidInput := (weightedSum - 1/2) * 6
  let delayProbability := 1 / (1 + ex (-sigmoidInput))
  let riskScore := (jround (delayProbability * 100 * 100) : ℚ) / 100
  let riskLevel := if 60 ≤ riskScore then "High" else if 30 ≤ riskScore then "Medium" else "Low"
  let expectedDelayDays :=
    if 0 < f.overdueCount then round1 (f.avg_payment_delay * (1 + delayProbability))
    else f.avg_payment_delay
  { customer_id := e.1
    risk_score := riskScore
    risk_level := riskLevel
    payment_delay_probability := round4 delayProbability
    expected_delay_days := round1 expectedDelayDays
    overdue_invoice_count := f.overdueCount
    total_outstanding := round2 f.totalOutstanding
    credit_utilization := round4 f.credit_utilization
    features :=
      { overdue_ratio := round3 nOverdue
        outstanding_ratio := round3 nOutstanding
        avg_payment_delay := round3 nDelay
        credit_utilization := round3 nUtilization
        recency_score := round3 nRecency
        partial_payment_ratio := round3 nPartial } }

/-- `scoreCustomerRisk(transactions, customers)`; `ex` stands for
`Math.exp` and `now` for `new Date()`, both passed in as parameters. -/
def scoreCustomerRisk (ex : ℚ → ℚ) (now : ℚ) (ts : List Txn) (cs : List Customer) :
    List Row :=
  let entries := featureEntries now ts cs
  entries.map (scoreRow ex entries)

/-- The property claim C5 asserts of one emitted risk row: every
normalized feature in [0, 1], the risk score in [0, 100], and the level
bands High ↔ score ≥ 60, Medium ↔ 30 ≤ score < 60, Low ↔ score < 30. -/
def RowOk (row : Row) : Prop :=
  (0 ≤ row.features.overdue_ratio ∧ row.features.overdue_ratio ≤ 1)
  ∧ (0 ≤ row.features.outstanding_ratio ∧ row.features.outstanding_ratio ≤ 1)
  ∧ (0 ≤ row.features.avg_payment_delay ∧ row.features.avg_payment_delay ≤ 1)
  ∧ (0 ≤ row.features.credit_utilization ∧ row.features.credit_utilization ≤ 1)
  ∧ (0 ≤ row.features.recency_score ∧ row.features.recency_score ≤ 1)
  ∧ (0 ≤ row.features.partial_payment_ratio ∧ row.features.partial_payment_ratio ≤ 1)
  ∧ (0 ≤ row.risk_score ∧ row.risk_score ≤ 100)
  ∧ (row.risk_level = "High" ↔ 60 ≤ row.risk_score)
  ∧ (row.risk_level = "Medium" ↔ 30 ≤ row.risk_score ∧ row.risk_score < 60)
  ∧ (row.risk_level = "Low" ↔ row.risk_score < 30)

/-- Concrete witness input: one customer, one paid transaction. -/
def c5txns : List Txn := [⟨"C", 50, 100, 0, "Paid", some 60, some 55⟩]

/-- Concrete witness catalog. -/
def c5custs : List Customer := [⟨"C", 1000⟩]

/-- `fun _ => 1` oracle standing for `Math.exp` in witnesses (positive
everywhere, as the real exponential is). -/
def expOne : ℚ → ℚ := fun _ => 1

end RiskScorer

namespace InventoryOptimizer

/-- A transaction as read by `optimizeInventory`: product, linearized
month, parsed quantity. -/
structure Txn where
  product_id : String
  month : ℕ
  quantity : ℚ
deriving DecidableEq, Repr

/-- A catalog product. -/
structure Product where
  id : String
deriving DecidableEq, Repr

/-- An inventory record (`current_stock_liters`, parsed). -/
structure InvRec where
  product_id : String
  current_stock : ℚ
deriving DecidableEq, Repr

/-- One output row of the inventory optimizer. -/
structure Row where
  product_id : String
  predicted_monthly_demand : ℚ
  demand_volatility : ℚ
  volatility_level : String
  safety_stock : ℚ
  reorder_point_ml : ℚ
  stockout_probability : ℚ
  days_until_stockout : ℚ
  recommendation : String
  confidence_score : ℚ
deriving DecidableEq, Repr

/-- Abramowitz–Stegun coefficient `a1`. -/
def a1 : ℚ := 0.254829592

/-- Abramowitz–Stegun coefficient `a2`. -/
def a2 : ℚ := -0.284496736

/-- Abramowitz–Stegun coefficient `a3`. -/
def a3 : ℚ := 1.421413741

/-- Abramowitz–Stegun coefficient `a4`. -/
def a4 : ℚ := -1.453152027

/-- Abramowitz–Stegun coefficient `a5`. -/
def a5 : ℚ := 1.061405429

/-- Abramowitz–Stegun coefficient `p`. -/
def pAS : ℚ := 0.3275911

/-- `normalCDF(z)`: the source's Abramowitz–Stegun approximation of Φ.
`sq` stands for `Math.sqrt` and `ex` for `Math.exp` (irrational-valued,
passed as parameters; the claims assume only `0 ≤ sq 2` and
`0 ≤ ex q ≤ 1` for `q ≤ 0`). -/
def normalCDF (sq ex : ℚ → ℚ) (z : ℚ) : ℚ :=
  if z < -6 then 0
  else if 6 < z then 1
  else
    let sign : ℚ := if z < 0 then -1 else 1
    let x := |z| / sq 2
    let t := 1 / (1 + pAS * x)
    let y := 1 - ((((a5 * t + a4) * t + a3) * t + a2) * t + a1) * t * ex (-(x * x))
    1/2 * (1 + sign * y)

/-- Distinct transaction months across all transactions, ascending. -/
def allMonthsOf (ts : List Txn) : List ℕ :=
  (firstKeys (fun t : Txn => t.month) ts).insertionSort (· ≤ ·)

/-- A product's complete monthly demand series over the global month
range, months with no sales contributing 0. -/
def demandSeriesOf (ts : List Txn) (pid : String) : List ℚ :=
  (allMonthsOf ts).map (fun m =>
    ((ts.filter (fun t => t.product_id = pid ∧ t.month = m)).map (fun t => t.quantity)).sum)

/-- The product's average daily demand: mean of the monthly series over
30. -/
def avgDailyDemandOf (ts : List Txn) (pid : String) : ℚ :=
  ssMean (demandSeriesOf ts pid) / 30

/-- `inventoryMap` lookup (object assignment: last record wins);
`none` when the product has no inventory record. -/
def invLookup (inventory : List InvRec) (pid : String) : Option InvRec :=
  inventory.reverse.find? (fun i => i.product_id = pid)

/-- `currentStock`: the looked-up record's stock, 0 when there is no
record. -/
def stockOf (inventory : List InvRec) (pid : String) : ℚ :=
  match invLookup inventory pid with
  | some inv => inv.current_stock
  | none => 0

/-- The loop body of `optimizeInventory` for one catalog product:
volatility statistics, safety stock, reorder point, stockout
probability, days-until-stockout and the recommendation ladder.  `sq`,
`ex` stand for `Math.sqrt` / `Math.exp`, and `sd` for
`ss.standardDeviation` (population standard deviation). -/
def productRow (sq ex : ℚ → ℚ) (sd : List ℚ → ℚ) (ts : List Txn)
    (inventory : List InvRec) (product : Product) : List Row :=
  let demandSeries := demandSeriesOf ts product.id
  if demandSeries.length < 2 then []
  else
    let avgMonthlyDemand := ssMean demandSeries
    let stdDevDemand := sd demandSeries
    let cv := if 0 < avgMonthlyDemand then stdDevDemand / avgMonthlyDemand else 0
    let volatilityLevel := if 1/2 < cv then "High" else if 1/4 < cv then "Medium" else "Low"
    let avgDailyDemand := avgMonthlyDemand / 30
    let dailyStdDev := stdDevDemand / sq 30
    let leadTime : ℚ := 7
    let safetyStock := 1.645 * dailyStdDev * sq 7
    let reorderPoint := avgDailyDemand * leadTime + safetyStock
    let currentStock := stockOf inventory product.id
    let daysUntilStockout :=
      if 0 < avgDailyDemand then round1 (currentStock / avgDailyDemand) else 999
    let demandDuringLT := avgDailyDemand * leadTime
    let stdDuringLT := dailyStdDev * sq 7
    let stockoutProb :=
      if 0 < stdDuringLT ∧ 0 < currentStock then
        1 - normalCDF sq ex ((currentStock - demandDuringLT) / stdDuringLT)
      else if currentStock ≤ 0 then 1
      else 0
    let dataMonths :=
      (firstKeys (fun t : Txn => t.month) (ts.filter (fun t => t.product_id = product.id))).length
    let confidence := min 95 ((jround (50 + (dataMonths : ℚ) * 3) : ℚ))
    let recommendation :=
      if currentStock ≤ 0 then
        "CRITICAL: Out of stock. Order " ++ toString (jround (reorderPoint + avgMonthlyDemand))
          ++ " L immediately"
      else if currentStock < reorderPoint then
        "Urgent: Below reorder point. Order "
          ++ toString (jround ((reorderPoint + avgMonthlyDemand - currentStock) / 100) * 100)
          ++ " L within 7 days"
      else if daysUntilStockout < 30 then
        "Plan reorder of " ++ toString (jround (avgMonthlyDemand * 1.5 / 100) * 100)
          ++ " L — " ++ toString (jround daysUntilStockout) ++ " days of stock remaining"
      else if 120 < daysUntilStockout then
        "Overstocked: " ++ toString (jround daysUntilStockout)
          ++ " days of supply. Consider reducing by "
          ++ toString (jround ((currentStock - avgMonthlyDemand * 3) / 100) * 100) ++ " L"
      else
        "Healthy stock: " ++ toString (jround daysUntilStockout)
          ++ " days supply. Next reorder in ~" ++ toString (jround (daysUntilStockout - leadTime))
          ++ " days"
    [{ product_id := product.id
       predicted_monthly_demand := round2 avgMonthlyDemand
       demand_volatility := round4 cv
       volatility_level := volatilityLevel
       safety_stock := round2 safetyStock
       reorder_point_ml := round2 reorderPoint
       stockout_probability := round4 stockoutProb
       days_until_stockout := daysUntilStockout
       recommendation := recommendation
       confidence_score := confidence }]

/-- `optimizeInventory(transactions, products, inventory)`: one pass over
the catalog. -/
def optimizeInventory (sq ex : ℚ → ℚ) (sd : List ℚ → ℚ) (ts : List Txn)
    (ps : List Product) (inventory : List InvRec) : List Row :=
  ps.flatMap (productRow sq ex sd ts inventory)

/-- Concrete input for the C4 counterexample: steady demand of 30/month
for two months (average daily demand 1) and a stock of exactly 999. -/
def c4txns : List Txn := [⟨"P", 100, 30⟩, ⟨"P", 101, 30⟩]

/-- The C4 catalog. -/
def c4prods : List Product := [⟨"P"⟩]

/-- The C4 inventory. -/
def c4inv : List InvRec := [⟨"P", 999⟩]

/-- C10 witness catalog: the transacting product plus a product with no
transactions and no inventory record. -/
def c10prods : List Product := [⟨"P"⟩, ⟨"Q"⟩]

/-- `fun _ => 0` oracle (a standardDeviation of 0 is realizable: the
series is constant). -/
def oracleZero : ℚ → ℚ := fun _ => 0

/-- `fun _ => 1` oracle for `Math.exp` in witnesses. -/
def oracleOne : ℚ → ℚ := fun _ => 1

/-- `Math.sqrt` stand-in for witnesses: nonnegative everywhere. -/
def sqrtTwoApprox : ℚ → ℚ := fun _ => 7/5

/-- `fun _ => 0` stand-in for `ss.standardDeviation` in witnesses (the
demand series of the concrete inputs are constant, so their population
standard deviation really is 0). -/
def sdZero : List ℚ → ℚ := fun _ => 0

end InventoryOptimizer

/-! ### Helper lemmas -/

theorem mem_firstKeysAux {α κ : Type} [DecidableEq κ] (key : α → κ) (l : List α)
    (seen : List κ) (k : κ) :
    k ∈ firstKeysAux key l seen ↔ (∃ a ∈ l, key a = k) ∧ k ∉ seen := by
  induction l generalizing seen with
  | nil => simp [firstKeysAux]
  | cons a l ih =>
    simp only [firstKeysAux]
    by_cases h : key a ∈ seen
    · rw [if_pos h, ih]
      constructor
      · rintro ⟨⟨b, hb, hkb⟩, hns⟩
        exact ⟨⟨b, List.mem_cons_of_mem a hb, hkb⟩, hns⟩
      · rintro ⟨⟨b, hb, hkb⟩, hns⟩
        rcases List.mem_cons.mp hb with rfl | hb
        · exact absurd (hkb ▸ h) hns
        · exact ⟨⟨b, hb, hkb⟩, hns⟩
    · rw [if_neg h]
      simp only [List.mem_cons, ih]
      constructor
      · rintro (rfl | ⟨⟨b, hb, hkb⟩, hns⟩)
        · exact ⟨⟨a, Or.inl rfl, rfl⟩, h⟩
        · refine ⟨⟨b, Or.inr hb, hkb⟩, fun hk => hns (Or.inr hk)⟩
      · rintro ⟨⟨b, hb, hkb⟩, hns⟩
        by_cases hka : k = key a
        · exact Or.inl hka
        · rcases hb with rfl | hb
          · exact absurd hkb.symm hka
          · exact Or.inr ⟨⟨b, hb, hkb⟩, by
              simp only [List.mem_cons, not_or]
              exact ⟨hka, hns⟩⟩

theorem mem_firstKeys {α κ : Type} [DecidableEq κ] (key : α → κ) (l : List α) (k : κ) :
    k ∈ firstKeys key l ↔ ∃ a ∈ l, key a = k := by
  simp [firstKeys, mem_firstKeysAux]

theorem nodup_firstKeysAux {α κ : Type} [DecidableEq κ] (key : α → κ) (l : List α)
    (seen : List κ) : (firstKeysAux key l seen).Nodup := by
  induction l generalizing seen with
  | nil => simp [firstKeysAux]
  | cons a l ih =>
    simp only [firstKeysAux]
    by_cases h : key a ∈ seen
    · rw [if_pos h]; exact ih seen
    · rw [if_neg h]
      refine List.nodup_cons.mpr ⟨fun hmem => ?_, ih _⟩
      rw [mem_firstKeysAux] at hmem
      exact hmem.2 (List.mem_cons_self _ _)

theorem nodup_firstKeys {α κ : Type} [DecidableEq κ] (key : α → κ) (l : List α) :
    (firstKeys key l).Nodup := nodup_firstKeysAux key l []

theorem firstKeys_nil_of_filter {α κ : Type} [DecidableEq κ] (key : α → κ) (l : List α)
    (p : α → Bool) (h : l.filter p = []) : firstKeys key (l.filter p) = [] := by
  rw [h]; rfl

theorem foldl_min_le_init (l : List ℚ) (a : ℚ) : l.foldl min a ≤ a := by
  induction l generalizing a with
  | nil => simp
  | cons x xs ih => exact le_trans (ih (min a x)) (min_le_left a x)

theorem foldl_min_le_mem {l : List ℚ} {v : ℚ} (h : v ∈ l) (a : ℚ) : l.foldl min a ≤ v := by
  induction l generalizing a with
  | nil => cases h
  | cons x xs ih =>
    rcases List.mem_cons.mp h with rfl | h
    · exact le_trans (foldl_min_le_init xs (min a v)) (min_le_right a v)
    · exact ih h (min a x)

theorem listMin_le {l : List ℚ} {v : ℚ} (h : v ∈ l) : listMin l ≤ v := by
  cases l with
  | nil => cases h
  | cons x xs =>
    rcases List.mem_cons.mp h with rfl | h
    · exact foldl_min_le_init xs v
    · exact foldl_min_le_mem h x

theorem init_le_foldl_max (l : List ℚ) (a : ℚ) : a ≤ l.foldl max a := by
  induction l generalizing a with
  | nil => simp
  | cons x xs ih => exact le_trans (le_max_left a x) (ih (max a x))

theorem mem_le_foldl_max {l : List ℚ} {v : ℚ} (h : v ∈ l) (a : ℚ) : v ≤ l.foldl max a := by
  induction l generalizing a with
  | nil => cases h
  | cons x xs ih =>
    rcases List.mem_cons.mp h with rfl | h
    · exact le_trans (le_max_right a v) (init_le_foldl_max xs (max a v))
    · exact ih h (max a x)

theorem le_listMax {l : List ℚ} {v : ℚ} (h : v ∈ l) : v ≤ listMax l := by
  cases l with
  | nil => cases h
  | cons x xs =>
    rcases List.mem_cons.mp h with rfl | h
    · exact init_le_foldl_max xs v
    · exact mem_le_foldl_max h x

theorem jround_mono {a b : ℚ} (h : a ≤ b) : jround a ≤ jround b :=
  Int.floor_le_floor (by linarith)

theorem jround_intCast (n : ℤ) : jround (n : ℚ) = n := by
  unfold jround
  rw [add_comm, Int.floor_add_int]
  norm_num

theorem jround_nonneg {q : ℚ} (h : 0 ≤ q) : 0 ≤ jround q := by
  have h0 : jround ((0 : ℤ) : ℚ) = 0 := jround_intCast 0
  have := jround_mono (show ((0 : ℤ) : ℚ) ≤ q by exact_mod_cast h)
  omega

theorem jround_le_intCast {q : ℚ} {n : ℤ} (h : q ≤ n) : jround q ≤ n := by
  have := jround_mono h
  rw [jround_intCast] at this
  exact this

theorem round1_mono {a b : ℚ} (h : a ≤ b) : round1 a ≤ round1 b := by
  unfold round1
  have := jround_mono (mul_le_mul_of_nonneg_right h (by norm_num : (0:ℚ) ≤ 10))
  have hc : ((jround (a * 10) : ℚ)) ≤ (jround (b * 10) : ℚ) := by exact_mod_cast this
  linarith

theorem round2_mono {a b : ℚ} (h : a ≤ b) : round2 a ≤ round2 b := by
  unfold round2
  have := jround_mono (mul_le_mul_of_nonneg_right h (by norm_num : (0:ℚ) ≤ 100))
  have hc : ((jround (a * 100) : ℚ)) ≤ (jround (b * 100) : ℚ) := by exact_mod_cast this
  linarith

theorem round3_unit {q : ℚ} (h0 : 0 ≤ q) (h1 : q ≤ 1) : 0 ≤ round3 q ∧ round3 q ≤ 1 := by
  unfold round3
  have hl : 0 ≤ jround (q * 1000) := jround_nonneg (by positivity)
  have hu : jround (q * 1000) ≤ (1000 : ℤ) := jround_le_intCast (by push_cast; linarith)
  constructor
  · positivity
  · rw [div_le_one (by norm_num : (0:ℚ) < 1000)]
    exact_mod_cast hu

theorem round4_unit {q : ℚ} (h0 : 0 ≤ q) (h1 : q ≤ 1) : 0 ≤ round4 q ∧ round4 q ≤ 1 := by
  unfold round4
  have hl : 0 ≤ jround (q * 10000) := jround_nonneg (by positivity)
  have hu : jround (q * 10000) ≤ (10000 : ℤ) := jround_le_intCast (by push_cast; linarith)
  constructor
  · positivity
  · rw [div_le_one (by norm_num : (0:ℚ) < 10000)]
    exact_mod_cast hu

/-! ### Claim theorems -/

/-- Claim C8: the six fixed feature weights of the Risk Scorer (overdue
0.25, outstanding 0.20, delay 0.20, utilization 0.15, recency 0.10,
partial 0.10) sum to exactly 1.0. -/
theorem claim_C8_weights_sum_one : (RiskScorer.WEIGHTS.map Prod.snd).sum = 1 := by
  simp [RiskScorer.WEIGHTS, RiskScorer.wOverdue, RiskScorer.wOutstanding, RiskScorer.wDelay,
        RiskScorer.wUtilization, RiskScorer.wRecency, RiskScorer.wPartial]
  norm_num

unseal Rat.add Rat.sub Rat.mul Rat.inv in
/-- Claim C2: on 4 consecutive months of a single product with monthly
quantities 100, 110, 120, 130 at unit price 10, the regression has slope
10 and intercept 100, R² is 1, and the month-5 (first) prediction row
has predicted quantity 140, predicted revenue 1400, confidence 1 and
trend direction "up". -/
theorem claim_C2_scenario :
    SalesForecaster.linearRegression [(0, 100), (1, 110), (2, 120), (3, 130)]
      = (JsNum.num 10, JsNum.num 100)
    ∧ SalesForecaster.rSquared [(0, 100), (1, 110), (2, 120), (3, 130)]
        (JsNum.num 10) (JsNum.num 100) = JsNum.num 1
    ∧ ((SalesForecaster.forecastSales SalesForecaster.c2txns SalesForecaster.c2prods).map
        (fun r => (r.prediction_month, r.predicted_quantity, r.predicted_revenue,
                   r.confidence_score, r.trend_direction))).head?
      = some (104, JsNum.num 140, JsNum.num 1400, JsNum.num 1, "up") := by
  decide

/-- Claim C9: the Sales Forecaster is a deterministic function of its
inputs — two runs on identical transactions and products produce
identical output rows. -/
theorem claim_C9_deterministic (ts₁ ts₂ : List SalesForecaster.Txn)
    (ps₁ ps₂ : List SalesForecaster.Product) (ht : ts₁ = ts₂) (hp : ps₁ = ps₂) :
    SalesForecaster.forecastSales ts₁ ps₁ = SalesForecaster.forecastSales ts₂ ps₂ := by
  rw [ht, hp]

/-- Witness for C9 at a concrete input. -/
theorem claim_C9_witness :
    SalesForecaster.c2txns = SalesForecaster.c2txns
    ∧ SalesForecaster.c2prods = SalesForecaster.c2prods
    ∧ SalesForecaster.forecastSales SalesForecaster.c2txns SalesForecaster.c2prods
      = SalesForecaster.forecastSales SalesForecaster.c2txns SalesForecaster.c2prods :=
  ⟨rfl, rfl, claim_C9_deterministic _ _ _ _ rfl rfl⟩

unseal Rat.add Rat.sub Rat.mul Rat.inv in
/-- Claim C1 (code bug): at `c1txns` the most recent month's transactions
sum to quantity 0 while its count is 1, so the `d.count > 0` guard —
which can never fail, since every materialized month bucket has count
≥ 1 — does not prevent the division: the code's average unit price is
`Infinity` and every predicted revenue of the (eligible, growing) product
is `Infinity`; the spec's skip-zero-quantity-months mean is the finite 3,
which would have given finite revenues. -/
theorem claim_C1_divzero_eval :
    SalesForecaster.codeAvgUnitPrice
        (SalesForecaster.c1txns.filter (fun t => t.product_id = "P")) = JsNum.inf
    ∧ SalesForecaster.specAvgUnitPrice
        (SalesForecaster.c1txns.filter (fun t => t.product_id = "P")) = 3
    ∧ (SalesForecaster.forecastSales SalesForecaster.c1txns SalesForecaster.c1prods).map
        (fun r => r.predicted_revenue) = [JsNum.inf, JsNum.inf, JsNum.inf] := by
  decide

theorem holtGo_state (α β : ℚ) (l : List ℚ) : ∀ L T : ℚ,
    ((CashFlow.holtGo α β L T l).1, (CashFlow.holtGo α β L T l).2.1)
      = l.foldl (CashFlow.holtStep α β) (L, T) := by
  induction l with
  | nil => intro L T; simp [CashFlow.holtGo]
  | cons x xs ih =>
    intro L T
    simp only [CashFlow.holtGo, List.foldl_cons, CashFlow.holtStep]
    exact ih _ _

theorem specHoltPair_eq_foldl (α β : ℚ) (a : List ℚ) :
    ∀ i, i < a.length →
      CashFlow.specHoltPair α β a i
        = ((a.drop 1).take i).foldl (CashFlow.holtStep α β)
            (a.getD 0 0, a.getD 1 0 - a.getD 0 0) := by
  intro i
  induction i with
  | zero => intro _; simp [CashFlow.specHoltPair]
  | succ i ih =>
    intro h
    have hi : i < a.length := Nat.lt_of_succ_lt h
    have hdrop : i < (a.drop 1).length := by
      rw [List.length_drop]; omega
    rw [CashFlow.specHoltPair, ih hi, List.take_succ,
        List.getElem?_eq_getElem hdrop, List.foldl_append]
    have hget : (a.drop 1)[i] = a.getD (i + 1) 0 := by
      rw [List.getElem_drop]
      rw [List.getD_eq_getElem?_getD,
          List.getElem?_eq_getElem (by omega : i + 1 < a.length)]
      simp only [Option.getD_some]
      congr 1
      omega
    simp only [Option.toList_some, List.foldl_cons, List.foldl_nil, hget]
    rfl

/-- Claim C7: for every series of length ≥ 2, the code's Holt smoothing
with α = 0.3, β = 0.1 realizes exactly the spec's recurrence (level
initialized to the first value, trend to second − first, then
`level[i] = α·a[i] + (1−α)(level[i−1]+trend[i−1])`,
`trend[i] = β(level[i]−level[i−1]) + (1−β)trend[i−1]`), and the
forecasts are `level + h·trend` for h = 1, 2, 3. -/
theorem claim_C7_holt_recurrence (s : List ℚ) (hs : 2 ≤ s.length) :
    (CashFlow.holtSmoothing (3/10) (1/10) s).level
        = (CashFlow.specHoltPair (3/10) (1/10) s (s.length - 1)).1
    ∧ (CashFlow.holtSmoothing (3/10) (1/10) s).trend
        = (CashFlow.specHoltPair (3/10) (1/10) s (s.length - 1)).2
    ∧ (CashFlow.holtSmoothing (3/10) (1/10) s).forecasts
        = [(CashFlow.specHoltPair (3/10) (1/10) s (s.length - 1)).1
             + 1 * (CashFlow.specHoltPair (3/10) (1/10) s (s.length - 1)).2,
           (CashFlow.specHoltPair (3/10) (1/10) s (s.length - 1)).1
             + 2 * (CashFlow.specHoltPair (3/10) (1/10) s (s.length - 1)).2,
           (CashFlow.specHoltPair (3/10) (1/10) s (s.length - 1)).1
             + 3 * (CashFlow.specHoltPair (3/10) (1/10) s (s.length - 1)).2] := by
  match s, hs with
  | x₀ :: x₁ :: rest, _ =>
    have hspec := specHoltPair_eq_foldl (3/10) (1/10) (x₀ :: x₁ :: rest)
      ((x₀ :: x₁ :: rest).length - 1) (by simp)
    have hfold := holtGo_state (3/10) (1/10) (x₁ :: rest) x₀ (x₁ - x₀)
    have hlen : (x₀ :: x₁ :: rest).length - 1 = rest.length + 1 := by simp
    have htake : ((x₀ :: x₁ :: rest).drop 1).take (rest.length + 1) = x₁ :: rest := by
      simp
    rw [hlen] at hspec
    rw [htake] at hspec
    simp only [List.getD_cons_zero, List.getD_cons_succ] at hspec
    have hl : (CashFlow.holtGo (3/10) (1/10) x₀ (x₁ - x₀) (x₁ :: rest)).1
        = (CashFlow.specHoltPair (3/10) (1/10) (x₀ :: x₁ :: rest) (rest.length + 1)).1 := by
      rw [hspec, ← hfold]
    have ht : (CashFlow.holtGo (3/10) (1/10) x₀ (x₁ - x₀) (x₁ :: rest)).2.1
        = (CashFlow.specHoltPair (3/10) (1/10) (x₀ :: x₁ :: rest) (rest.length + 1)).2 := by
      rw [hspec, ← hfold]
    refine ⟨?_, ?_, ?_⟩ <;>
      simp only [CashFlow.holtSmoothing, hlen, hl, ht]

/-- Witness for C7 at the series [1, 3]. -/
theorem claim_C7_witness :
    2 ≤ ([1, 3] : List ℚ).length
    ∧ ((CashFlow.holtSmoothing (3/10) (1/10) [1, 3]).level
          = (CashFlow.specHoltPair (3/10) (1/10) [1, 3] (([1, 3] : List ℚ).length - 1)).1
        ∧ (CashFlow.holtSmoothing (3/10) (1/10) [1, 3]).trend
          = (CashFlow.specHoltPair (3/10) (1/10) [1, 3] (([1, 3] : List ℚ).length - 1)).2
        ∧ (CashFlow.holtSmoothing (3/10) (1/10) [1, 3]).forecasts
          = [(CashFlow.specHoltPair (3/10) (1/10) [1, 3] (([1, 3] : List ℚ).length - 1)).1
               + 1 * (CashFlow.specHoltPair (3/10) (1/10) [1, 3] (([1, 3] : List ℚ).length - 1)).2,
             (CashFlow.specHoltPair (3/10) (1/10) [1, 3] (([1, 3] : List ℚ).length - 1)).1
               + 2 * (CashFlow.specHoltPair (3/10) (1/10) [1, 3] (([1, 3] : List ℚ).length - 1)).2,
             (CashFlow.specHoltPair (3/10) (1/10) [1, 3] (([1, 3] : List ℚ).length - 1)).1
               + 3 * (CashFlow.specHoltPair (3/10) (1/10) [1, 3] (([1, 3] : List ℚ).length - 1)).2]) :=
  ⟨by decide, claim_C7_holt_recurrence [1, 3] (by decide)⟩

theorem productRows_product_id (am : List ℕ) (pid : String)
    (pts : List SalesForecaster.Txn) :
    ∀ r ∈ SalesForecaster.productRows am pid pts, r.product_id = pid := by
  intro r hr
  simp only [SalesForecaster.productRows] at hr
  split at hr
  · cases hr
  · simp only [List.mem_map] at hr
    obtain ⟨j, _, rfl⟩ := hr
    rfl

theorem productRows_length (am : List ℕ) (pid : String)
    (pts : List SalesForecaster.Txn) :
    (SalesForecaster.productRows am pid pts).length =
      if ((firstKeys (fun t : SalesForecaster.Txn => t.month) pts).filter
            (fun mo => mo ∈ am)).length < 3 then 0 else 3 := by
  simp only [SalesForecaster.productRows, List.length_map]
  split <;> simp

theorem flatMap_filter_key_length {κ β : Type} [DecidableEq κ] (g : β → κ)
    (f : κ → List β) (k₀ : κ) :
    ∀ l : List κ, l.Nodup → (∀ k, ∀ b ∈ f k, g b = k) →
      ((l.flatMap f).filter (fun b => g b = k₀)).length
        = if k₀ ∈ l then (f k₀).length else 0 := by
  intro l
  induction l with
  | nil => intro _ _; simp
  | cons k l ih =>
    intro hnd hf
    have hnd' := List.nodup_cons.mp hnd
    rw [List.flatMap_cons, List.filter_append, List.length_append, ih hnd'.2 hf]
    by_cases hk : k = k₀
    · subst hk
      have h1 : (f k).filter (fun b => g b = k) = f k :=
        List.filter_eq_self.mpr (fun b hb => by simp [hf k b hb])
      rw [h1, if_neg hnd'.1, if_pos (List.mem_cons_self k l)]
      simp
    · have h1 : (f k).filter (fun b => g b = k₀) = [] :=
        List.filter_eq_nil_iff.mpr (fun b hb => by simp [hf k b hb, hk])
      rw [h1]
      simp only [List.length_nil, Nat.zero_add, List.mem_cons]
      by_cases hmem : k₀ ∈ l
      · rw [if_pos hmem, if_pos (Or.inr hmem)]
      · rw [if_neg hmem, if_neg (by rintro (rfl | h) <;> [exact hk rfl; exact hmem h])]

theorem product_months_mem_allMonths (ts : List SalesForecaster.Txn) (pid : String)
    (mo : ℕ)
    (h : mo ∈ firstKeys (fun t : SalesForecaster.Txn => t.month)
          (ts.filter (fun t => t.product_id = pid))) :
    mo ∈ SalesForecaster.allMonthsOf ts := by
  rw [mem_firstKeys] at h
  obtain ⟨t, ht, rfl⟩ := h
  rw [SalesForecaster.allMonthsOf, List.mem_insertionSort, mem_firstKeys]
  exact ⟨t, List.mem_of_mem_filter ht, rfl⟩

/-- Claim C6: a catalog product with fewer than 3 distinct transaction
months gets zero prediction rows; one with at least 3 distinct months
gets exactly 3. -/
theorem claim_C6_row_counts (ts : List SalesForecaster.Txn)
    (ps : List SalesForecaster.Product) (pid : String)
    (hp : pid ∈ ps.map SalesForecaster.Product.id) :
    ((SalesForecaster.forecastSales ts ps).filter (fun r => r.product_id = pid)).length
      = if SalesForecaster.distinctMonthCount ts pid < 3 then 0 else 3 := by
  unfold SalesForecaster.forecastSales
  rw [flatMap_filter_key_length (fun r : SalesForecaster.Row => r.product_id) _ pid
        (firstKeys (fun t : SalesForecaster.Txn => t.product_id) ts)
        (nodup_firstKeys _ _) ?hall]
  case hall =>
    intro k r hr
    by_cases hkp : k ∈ ps.map SalesForecaster.Product.id
    · rw [if_pos hkp] at hr
      exact productRows_product_id _ k _ r hr
    · rw [if_neg hkp] at hr
      cases hr
  by_cases hmem : pid ∈ firstKeys (fun t : SalesForecaster.Txn => t.product_id) ts
  · rw [if_pos hmem, if_pos hp, productRows_length]
    have hfid : ((firstKeys (fun t : SalesForecaster.Txn => t.month)
        (ts.filter (fun t => t.product_id = pid))).filter
          (fun mo => mo ∈ SalesForecaster.allMonthsOf ts))
        = firstKeys (fun t : SalesForecaster.Txn => t.month)
            (ts.filter (fun t => t.product_id = pid)) :=
      List.filter_eq_self.mpr (fun mo hmo => by
        simpa using product_months_mem_allMonths ts pid mo hmo)
    rw [hfid]
    rfl
  · rw [if_neg hmem]
    have hniltx : ts.filter (fun t : SalesForecaster.Txn => t.product_id = pid) = [] := by
      rw [List.filter_eq_nil_iff]
      intro t ht htp
      exact hmem ((mem_firstKeys _ ts pid).mpr ⟨t, ht, by simpa using htp⟩)
    have : SalesForecaster.distinctMonthCount ts pid = 0 := by
      rw [SalesForecaster.distinctMonthCount, hniltx]
      rfl
    rw [this]
    rfl

/-- Witness for C6: the C2 product has 4 distinct months, hence 3 rows. -/
theorem claim_C6_witness :
    "P" ∈ SalesForecaster.c2prods.map SalesForecaster.Product.id
    ∧ ((SalesForecaster.forecastSales SalesForecaster.c2txns SalesForecaster.c2prods).filter
          (fun r => r.product_id = "P")).length
        = if SalesForecaster.distinctMonthCount SalesForecaster.c2txns "P" < 3 then 0 else 3 :=
  ⟨by decide, claim_C6_row_counts SalesForecaster.c2txns SalesForecaster.c2prods "P" (by decide)⟩

theorem sesFrom_getLastD_unit {α : ℚ} (h0 : 0 ≤ α) (h1 : α ≤ 1) :
    ∀ (xs : List ℚ) (prev : ℚ), 0 ≤ prev → prev ≤ 1 →
      (∀ x ∈ xs, 0 ≤ x ∧ x ≤ 1) →
      0 ≤ (CashFlow.sesFrom α prev xs).getLastD prev
      ∧ (CashFlow.sesFrom α prev xs).getLastD prev ≤ 1 := by
  intro xs
  induction xs with
  | nil =>
    intro prev hp0 hp1 _
    simp only [CashFlow.sesFrom, List.getLastD_nil]
    exact ⟨hp0, hp1⟩
  | cons x xs ih =>
    intro prev hp0 hp1 hall
    have hx := hall x (List.mem_cons_self _ _)
    have hs0 : 0 ≤ α * x + (1 - α) * prev := by nlinarith
    have hs1 : α * x + (1 - α) * prev ≤ 1 := by nlinarith
    rw [CashFlow.sesFrom, List.getLastD_cons]
    exact ih _ hs0 hs1 (fun y hy => hall y (List.mem_cons_of_mem _ hy))

theorem sesLevel_unit {α : ℚ} (h0 : 0 ≤ α) (h1 : α ≤ 1) (l : List ℚ)
    (hall : ∀ x ∈ l, 0 ≤ x ∧ x ≤ 1) :
    0 ≤ CashFlow.sesLevel α l ∧ CashFlow.sesLevel α l ≤ 1 := by
  cases l with
  | nil => simp [CashFlow.sesLevel]
  | cons x xs =>
    have hx := hall x (List.mem_cons_self _ _)
    rw [CashFlow.sesLevel]
    exact sesFrom_getLastD_unit h0 h1 xs x hx.1 hx.2
      (fun y hy => hall y (List.mem_cons_of_mem _ hy))

/-- Claim C3: the cash-flow predictor emits exactly 3 rows when the
transactions span at least 3 distinct months and none otherwise; and on
every emitted row, provided the (parameterized) collection-rate standard
deviation is nonnegative and every monthly collection rate lies in
[0, 1], `worst_case_inflow ≤ most_likely_inflow ≤ best_case_inflow`. -/
theorem claim_C3_cashflow_rows (ts : List CashFlow.Txn) (σ : ℚ) :
    ((3 ≤ (firstKeys (fun t : CashFlow.Txn => t.month) ts).length →
        (CashFlow.forecastCashFlow ts σ).length = 3)
      ∧ ((firstKeys (fun t : CashFlow.Txn => t.month) ts).length < 3 →
        CashFlow.forecastCashFlow ts σ = []))
    ∧ (0 ≤ σ → (∀ r ∈ CashFlow.collectionRates ts, 0 ≤ r ∧ r ≤ 1) →
        ∀ row ∈ CashFlow.forecastCashFlow ts σ,
          row.worst_case_inflow ≤ row.most_likely_inflow
          ∧ row.most_likely_inflow ≤ row.best_case_inflow) := by
  have hlen : (CashFlow.sortedMonthsOf ts).length
      = (firstKeys (fun t : CashFlow.Txn => t.month) ts).length :=
    List.length_insertionSort _ _
  refine ⟨⟨fun h3 => ?_, fun hlt => ?_⟩, fun hσ hrates row hrow => ?_⟩
  · simp only [CashFlow.forecastCashFlow]
    rw [if_neg (by omega)]
    simp
  · simp only [CashFlow.forecastCashFlow]
    rw [if_pos (by omega)]
  · have hL := @sesLevel_unit (3/10) (by norm_num) (by norm_num)
      (CashFlow.collectionRates ts) hrates
    simp only [CashFlow.forecastCashFlow] at hrow
    split at hrow
    · cases hrow
    · simp only [List.mem_map] at hrow
      obtain ⟨i, _, rfl⟩ := hrow
      constructor
      · apply round2_mono
        apply mul_le_mul_of_nonneg_left _ (le_max_left 0 _)
        exact max_le hL.1 (by linarith)
      · apply round2_mono
        apply mul_le_mul_of_nonneg_left _ (le_max_left 0 _)
        exact le_min hL.2 (by linarith)

unseal Rat.add Rat.sub Rat.mul Rat.inv in
/-- Witness for C3 at a concrete 3-month input with σ = 0. -/
theorem claim_C3_witness :
    (3 ≤ (firstKeys (fun t : CashFlow.Txn => t.month) CashFlow.c3txns).length
      ∧ (CashFlow.forecastCashFlow CashFlow.c3txns 0).length = 3)
    ∧ ((0:ℚ) ≤ 0
      ∧ (∀ r ∈ CashFlow.collectionRates CashFlow.c3txns, 0 ≤ r ∧ r ≤ 1)
      ∧ ∀ row ∈ CashFlow.forecastCashFlow CashFlow.c3txns 0,
          row.worst_case_inflow ≤ row.most_likely_inflow
          ∧ row.most_likely_inflow ≤ row.best_case_inflow) :=
  ⟨⟨by decide, (claim_C3_cashflow_rows CashFlow.c3txns 0).1.1 (by decide)⟩,
   le_refl 0, by decide,
   (claim_C3_cashflow_rows CashFlow.c3txns 0).2 (le_refl 0) (by decide)⟩

theorem normalizeVal_unit {vals : List ℚ} {v : ℚ} (h : v ∈ vals) :
    0 ≤ RiskScorer.normalizeVal vals v ∧ RiskScorer.normalizeVal vals v ≤ 1 := by
  unfold RiskScorer.normalizeVal
  by_cases hr : 0 < listMax vals - listMin vals
  · rw [if_pos hr]
    constructor
    · exact div_nonneg (by linarith [listMin_le h]) (le_of_lt hr)
    · rw [div_le_one hr]
      linarith [le_listMax h]
  · rw [if_neg hr]
    norm_num

theorem sigmoid_unit {E : ℚ} (hE : 0 < E) : 0 ≤ 1/(1+E) ∧ 1/(1+E) ≤ 1 := by
  constructor
  · positivity
  · rw [div_le_one (by linarith)]
    linarith

theorem score_unit {p : ℚ} (h0 : 0 ≤ p) (h1 : p ≤ 1) :
    0 ≤ (jround (p * 100 * 100) : ℚ)/100 ∧ (jround (p * 100 * 100) : ℚ)/100 ≤ 100 := by
  have hl : 0 ≤ jround (p * 100 * 100) := jround_nonneg (by positivity)
  have hu : jround (p * 100 * 100) ≤ (10000 : ℤ) := jround_le_intCast (by push_cast; linarith)
  constructor
  · positivity
  · rw [div_le_iff₀ (by norm_num : (0:ℚ) < 100)]
    calc ((jround (p * 100 * 100) : ℚ)) ≤ ((10000 : ℤ) : ℚ) := by exact_mod_cast hu
    _ = 100 * 100 := by norm_num

theorem level_iff (s : ℚ) :
    ((if 60 ≤ s then "High" else if 30 ≤ s then "Medium" else "Low") = "High" ↔ 60 ≤ s)
    ∧ ((if 60 ≤ s then "High" else if 30 ≤ s then "Medium" else "Low") = "Medium"
        ↔ 30 ≤ s ∧ s < 60)
    ∧ ((if 60 ≤ s then "High" else if 30 ≤ s then "Medium" else "Low") = "Low" ↔ s < 30) := by
  by_cases h60 : 60 ≤ s
  · rw [if_pos h60]
    refine ⟨by simp [h60], ?_, ?_⟩
    · simp only [show ("High" = "Medium") = False by simp]
      constructor
      · intro h; cases h
      · rintro ⟨_, hlt⟩; linarith
    · simp only [show ("High" = "Low") = False by simp]
      constructor
      · intro h; cases h
      · intro hlt; linarith
  · rw [if_neg h60]
    by_cases h30 : 30 ≤ s
    · rw [if_pos h30]
      refine ⟨?_, by simp [h30, lt_of_not_le h60], ?_⟩
      · simp only [show ("Medium" = "High") = False by simp]
        constructor
        · intro h; cases h
        · intro h; exact absurd h h60
      · simp only [show ("Medium" = "Low") = False by simp]
        constructor
        · intro h; cases h
        · intro hlt; linarith
    · rw [if_neg h30]
      refine ⟨?_, ?_, by simp [lt_of_not_le h30]⟩
      · simp only [show ("Low" = "High") = False by simp]
        constructor
        · intro h; cases h
        · intro h; exact absurd h h60
      · simp only [show ("Low" = "Medium") = False by simp]
        constructor
        · intro h; cases h
        · rintro ⟨h, _⟩; exact absurd h h30

/-- Claim C5: every row the risk scorer emits has all normalized feature
values in [0, 1], a risk score in [0, 100], and risk level High iff
score ≥ 60, Medium iff 30 ≤ score < 60, Low iff score < 30 (given that
the exponential oracle is positive, as `Math.exp` is). -/
theorem claim_C5_risk_scoring (ex : ℚ → ℚ) (now : ℚ) (ts : List RiskScorer.Txn)
    (cs : List RiskScorer.Customer) (hex : ∀ q, 0 < ex q) :
    ∀ row ∈ RiskScorer.scoreCustomerRisk ex now ts cs, RiskScorer.RowOk row := by
  intro row hrow
  simp only [RiskScorer.scoreCustomerRisk, List.mem_map] at hrow
  obtain ⟨e, he, rfl⟩ := hrow
  simp only [RiskScorer.RowOk, RiskScorer.scoreRow]
  refine ⟨?_, ?_, ?_, ?_, ?_, ?_, ?_, ?_, ?_, ?_⟩
  · exact round3_unit (normalizeVal_unit (List.mem_map_of_mem _ he)).1
      (normalizeVal_unit (List.mem_map_of_mem _ he)).2
  · exact round3_unit (normalizeVal_unit (List.mem_map_of_mem _ he)).1
      (normalizeVal_unit (List.mem_map_of_mem _ he)).2
  · exact round3_unit (normalizeVal_unit (List.mem_map_of_mem _ he)).1
      (normalizeVal_unit (List.mem_map_of_mem _ he)).2
  · exact round3_unit (normalizeVal_unit (List.mem_map_of_mem _ he)).1
      (normalizeVal_unit (List.mem_map_of_mem _ he)).2
  · exact round3_unit (normalizeVal_unit (List.mem_map_of_mem _ he)).1
      (normalizeVal_unit (List.mem_map_of_mem _ he)).2
  · exact round3_unit (normalizeVal_unit (List.mem_map_of_mem _ he)).1
      (normalizeVal_unit (List.mem_map_of_mem _ he)).2
  · exact score_unit (sigmoid_unit (hex _)).1 (sigmoid_unit (hex _)).2
  · exact (level_iff _).1
  · exact (level_iff _).2.1
  · exact (level_iff _).2.2

/-- Witness for C5 at one customer with one paid transaction. -/
theorem claim_C5_witness :
    (∀ q : ℚ, 0 < RiskScorer.expOne q)
    ∧ ∀ row ∈ RiskScorer.scoreCustomerRisk RiskScorer.expOne 100
        RiskScorer.c5txns RiskScorer.c5custs, RiskScorer.RowOk row :=
  ⟨fun _ => one_pos,
   claim_C5_risk_scoring RiskScorer.expOne 100 RiskScorer.c5txns RiskScorer.c5custs
     (fun _ => one_pos)⟩

theorem round4_zero : round4 0 = 0 := by
  have h : (0 : ℚ) * 10000 = ((0 : ℤ) : ℚ) := by norm_num
  rw [round4, h, jround_intCast]
  norm_num

theorem round4_one : round4 1 = 1 := by
  have h : (1 : ℚ) * 10000 = ((10000 : ℤ) : ℚ) := by norm_num
  rw [round4, h, jround_intCast]
  norm_num

theorem asPoly_bounds (t : ℚ) (h0 : 0 ≤ t) (h1 : t ≤ 1) :
    0 ≤ (((InventoryOptimizer.a5 * t + InventoryOptimizer.a4) * t + InventoryOptimizer.a3) * t
          + InventoryOptimizer.a2) * t + InventoryOptimizer.a1
    ∧ (((InventoryOptimizer.a5 * t + InventoryOptimizer.a4) * t + InventoryOptimizer.a3) * t
          + InventoryOptimizer.a2) * t + InventoryOptimizer.a1 ≤ 17/10 := by
  simp only [InventoryOptimizer.a1, InventoryOptimizer.a2, InventoryOptimizer.a3,
    InventoryOptimizer.a4, InventoryOptimizer.a5]
  constructor
  · have hinner : (9:ℚ)/10 ≤ 1.421413741 + -1.453152027 * t + 1.061405429 * t * t := by
      nlinarith [sq_nonneg (2 * 1.061405429 * t + -1.453152027)]
    nlinarith [sq_nonneg (t - 79/500), sq_nonneg t, mul_nonneg (mul_nonneg h0 h0) h0]
  · nlinarith [mul_nonneg h0 h0, mul_nonneg (mul_nonneg h0 h0) h0,
      mul_nonneg (mul_nonneg (mul_nonneg h0 h0) h0) h0]

theorem normalCDF_unit (sq ex : ℚ → ℚ) (hsq : 0 ≤ sq 2)
    (hex : ∀ q, q ≤ 0 → 0 ≤ ex q ∧ ex q ≤ 1) (z : ℚ) :
    0 ≤ InventoryOptimizer.normalCDF sq ex z ∧ InventoryOptimizer.normalCDF sq ex z ≤ 1 := by
  simp only [InventoryOptimizer.normalCDF]
  split
  · norm_num
  · split
    · norm_num
    · have hx : 0 ≤ |z| / sq 2 := div_nonneg (abs_nonneg z) hsq
      have hE := hex (-((|z| / sq 2) * (|z| / sq 2))) (by nlinarith)
      have hden : (1:ℚ) ≤ 1 + InventoryOptimizer.pAS * (|z| / sq 2) := by
        have : 0 ≤ InventoryOptimizer.pAS * (|z| / sq 2) :=
          mul_nonneg (by norm_num [InventoryOptimizer.pAS]) hx
        linarith
      have ht0 : 0 < 1 / (1 + InventoryOptimizer.pAS * (|z| / sq 2)) := by positivity
      have ht1 : 1 / (1 + InventoryOptimizer.pAS * (|z| / sq 2)) ≤ 1 := by
        rw [div_le_one (by linarith)]
        exact hden
      have hQ := asPoly_bounds (1 / (1 + InventoryOptimizer.pAS * (|z| / sq 2))) ht0.le ht1
      have hP0 : 0 ≤ (((InventoryOptimizer.a5 * (1 / (1 + InventoryOptimizer.pAS * (|z| / sq 2)))
            + InventoryOptimizer.a4) * (1 / (1 + InventoryOptimizer.pAS * (|z| / sq 2)))
            + InventoryOptimizer.a3) * (1 / (1 + InventoryOptimizer.pAS * (|z| / sq 2)))
            + InventoryOptimizer.a2) * (1 / (1 + InventoryOptimizer.pAS * (|z| / sq 2)))
            + InventoryOptimizer.a1 := hQ.1
      have hP1 := hQ.2
      set Q := (((InventoryOptimizer.a5 * (1 / (1 + InventoryOptimizer.pAS * (|z| / sq 2)))
            + InventoryOptimizer.a4) * (1 / (1 + InventoryOptimizer.pAS * (|z| / sq 2)))
            + InventoryOptimizer.a3) * (1 / (1 + InventoryOptimizer.pAS * (|z| / sq 2)))
            + InventoryOptimizer.a2) * (1 / (1 + InventoryOptimizer.pAS * (|z| / sq 2)))
            + InventoryOptimizer.a1 with hQdef
      set tv := 1 / (1 + InventoryOptimizer.pAS * (|z| / sq 2)) with htv
      set E := ex (-((|z| / sq 2) * (|z| / sq 2))) with hEdef
      have hprod0 : 0 ≤ Q * tv * E := mul_nonneg (mul_nonneg hP0 ht0.le) hE.1
      have hqt : Q * tv ≤ 17/10 := by
        calc Q * tv ≤ Q * 1 := mul_le_mul_of_nonneg_left ht1 hP0
        _ = Q := mul_one Q
        _ ≤ 17/10 := hP1
      have hprod1 : Q * tv * E ≤ 17/10 := by
        calc Q * tv * E ≤ Q * tv * 1 :=
              mul_le_mul_of_nonneg_left hE.2 (mul_nonneg hP0 ht0.le)
        _ = Q * tv := mul_one _
        _ ≤ 17/10 := hqt
      clear_value Q tv E
      split <;> constructor <;> linarith [hprod0, hprod1]

/-- The property the amended claim C4 asserts of one inventory row, in
terms of the inventory and transaction inputs: the stockout probability
is in [0, 1] and equals 1 whenever the product's current stock is ≤ 0,
and a zero average daily demand forces the 999 sentinel. -/
theorem productRow_stockout_props (sq ex : ℚ → ℚ) (sd : List ℚ → ℚ)
    (ts : List InventoryOptimizer.Txn) (inventory : List InventoryOptimizer.InvRec)
    (p : InventoryOptimizer.Product) (hsq : 0 ≤ sq 2)
    (hex : ∀ q, q ≤ 0 → 0 ≤ ex q ∧ ex q ≤ 1) :
    ∀ row ∈ InventoryOptimizer.productRow sq ex sd ts inventory p,
      (0 ≤ row.stockout_probability ∧ row.stockout_probability ≤ 1)
      ∧ (InventoryOptimizer.stockOf inventory row.product_id ≤ 0 →
          row.stockout_probability = 1)
      ∧ (InventoryOptimizer.avgDailyDemandOf ts row.product_id = 0 →
          row.days_until_stockout = 999) := by
  intro row hrow
  simp only [InventoryOptimizer.productRow] at hrow
  split at hrow
  · cases hrow
  · simp only [List.mem_singleton] at hrow
    subst hrow
    refine ⟨?_, ?_, ?_⟩
    · simp only
      split
      · next hc =>
        have hcdf := normalCDF_unit sq ex hsq hex
          ((InventoryOptimizer.stockOf inventory p.id
              - ssMean (InventoryOptimizer.demandSeriesOf ts p.id) / 30 * 7)
            / (sd (InventoryOptimizer.demandSeriesOf ts p.id) / sq 30 * sq 7))
        exact round4_unit (by linarith [hcdf.2]) (by linarith [hcdf.1])
      · split
        · rw [round4_one]
          norm_num
        · rw [round4_zero]
          norm_num
    · intro hstock
      simp only
      rw [if_neg (by rintro ⟨-, h⟩; linarith), if_pos hstock, round4_one]
    · intro hdemand
      simp only [InventoryOptimizer.avgDailyDemandOf] at hdemand
      simp only
      rw [if_neg (by rw [hdemand]; exact lt_irrefl 0)]

/-- Claim C4, amended: on every emitted inventory row the (rounded)
stockout probability lies in [0, 1]; it equals 1 whenever the product's
current stock is ≤ 0; and days-until-stockout is the 999 sentinel
whenever the product's average daily demand is 0.  (The original claim's
"999 iff demand = 0" fails: see the counterexample — a positive demand
with 999 days of cover also produces 999.) -/
theorem claim_C4_stockout_fields (sq ex : ℚ → ℚ) (sd : List ℚ → ℚ)
    (ts : List InventoryOptimizer.Txn) (ps : List InventoryOptimizer.Product)
    (inventory : List InventoryOptimizer.InvRec) (hsq : 0 ≤ sq 2)
    (hex : ∀ q, q ≤ 0 → 0 ≤ ex q ∧ ex q ≤ 1) :
    ∀ row ∈ InventoryOptimizer.optimizeInventory sq ex sd ts ps inventory,
      (0 ≤ row.stockout_probability ∧ row.stockout_probability ≤ 1)
      ∧ (InventoryOptimizer.stockOf inventory row.product_id ≤ 0 →
          row.stockout_probability = 1)
      ∧ (InventoryOptimizer.avgDailyDemandOf ts row.product_id = 0 →
          row.days_until_stockout = 999) := by
  intro row hrow
  simp only [InventoryOptimizer.optimizeInventory, List.mem_flatMap] at hrow
  obtain ⟨p, _, hrow⟩ := hrow
  exact productRow_stockout_props sq ex sd ts inventory p hsq hex row hrow

unseal Rat.add Rat.sub Rat.mul Rat.inv in
/-- Counterexample to C4 as stated: with steady demand 30/month (average
daily demand 1 ≠ 0) and current stock 999, the emitted row's
days-until-stockout is exactly the sentinel value 999, so "999 iff
average daily demand is 0" is false. -/
theorem claim_C4_counterexample :
    ¬ ∀ row ∈ InventoryOptimizer.optimizeInventory InventoryOptimizer.oracleZero
          InventoryOptimizer.oracleOne InventoryOptimizer.sdZero InventoryOptimizer.c4txns
          InventoryOptimizer.c4prods InventoryOptimizer.c4inv,
        (row.days_until_stockout = 999 ↔
          InventoryOptimizer.avgDailyDemandOf InventoryOptimizer.c4txns row.product_id = 0) := by
  decide

/-- Witness for the amended C4 at a concrete input. -/
theorem claim_C4_witness :
    ((0 : ℚ) ≤ InventoryOptimizer.oracleZero 2
      ∧ ∀ q : ℚ, q ≤ 0 →
          0 ≤ InventoryOptimizer.oracleOne q ∧ InventoryOptimizer.oracleOne q ≤ 1)
    ∧ ∀ row ∈ InventoryOptimizer.optimizeInventory InventoryOptimizer.oracleZero
          InventoryOptimizer.oracleOne InventoryOptimizer.sdZero InventoryOptimizer.c4txns
          InventoryOptimizer.c4prods InventoryOptimizer.c4inv,
        (0 ≤ row.stockout_probability ∧ row.stockout_probability ≤ 1)
        ∧ (InventoryOptimizer.stockOf InventoryOptimizer.c4inv row.product_id ≤ 0 →
            row.stockout_probability = 1)
        ∧ (InventoryOptimizer.avgDailyDemandOf InventoryOptimizer.c4txns row.product_id = 0 →
            row.days_until_stockout = 999) :=
  ⟨⟨le_refl 0, fun _ _ => ⟨zero_le_one, le_refl 1⟩⟩,
   claim_C4_stockout_fields InventoryOptimizer.oracleZero InventoryOptimizer.oracleOne
     InventoryOptimizer.sdZero InventoryOptimizer.c4txns InventoryOptimizer.c4prods
     InventoryOptimizer.c4inv (le_refl 0) (fun _ _ => ⟨zero_le_one, le_refl 1⟩)⟩

theorem productRow_form (sq ex : ℚ → ℚ) (sd : List ℚ → ℚ)
    (ts : List InventoryOptimizer.Txn) (inventory : List InventoryOptimizer.InvRec)
    (p : InventoryOptimizer.Product) (h2 : 2 ≤ (InventoryOptimizer.allMonthsOf ts).length) :
    ∃ r, InventoryOptimizer.productRow sq ex sd ts inventory p = [r]
      ∧ r.product_id = p.id := by
  simp only [InventoryOptimizer.productRow]
  rw [if_neg ?hc]
  case hc => simp only [InventoryOptimizer.demandSeriesOf, List.length_map]; omega
  exact ⟨_, rfl, rfl⟩

theorem criticalHeadsRecommendation (s t : String) :
    ("CRITICAL" : String).data <+: (("CRITICAL: Out of stock. Order " ++ s) ++ t).data := by
  have h : ("CRITICAL" : String).data <+: ("CRITICAL: Out of stock. Order " : String).data := by
    decide
  rw [String.data_append, String.data_append]
  exact (h.trans ⟨_, rfl⟩).trans ⟨_, rfl⟩

/-- Claim C10 (implicit): whenever the global transaction history spans
at least 2 distinct months, the optimizer emits exactly one row per
catalog product, in catalog order — products with no transactions and no
inventory record included — and a product with no inventory record is
reported with stockout probability 1 and a recommendation beginning with
"CRITICAL". -/
theorem claim_C10_catalog_coverage (sq ex : ℚ → ℚ) (sd : List ℚ → ℚ)
    (ts : List InventoryOptimizer.Txn) (ps : List InventoryOptimizer.Product)
    (inventory : List InventoryOptimizer.InvRec)
    (h2 : 2 ≤ (InventoryOptimizer.allMonthsOf ts).length) :
    (InventoryOptimizer.optimizeInventory sq ex sd ts ps inventory).map
        (fun r => r.product_id) = ps.map InventoryOptimizer.Product.id
    ∧ ∀ row ∈ InventoryOptimizer.optimizeInventory sq ex sd ts ps inventory,
        InventoryOptimizer.invLookup inventory row.product_id = none →
          row.stockout_probability = 1
          ∧ ("CRITICAL" : String).data <+: row.recommendation.data := by
  constructor
  · induction ps with
    | nil => rfl
    | cons p ps ih =>
      obtain ⟨r, hr, hid⟩ := productRow_form sq ex sd ts inventory p h2
      simp only [InventoryOptimizer.optimizeInventory, List.flatMap_cons, List.map_append,
        List.map_cons] at *
      rw [hr]
      simp only [List.map_cons, List.map_nil, List.cons_append, List.nil_append, hid, ih]
  · intro row hrow hnone
    simp only [InventoryOptimizer.optimizeInventory, List.mem_flatMap] at hrow
    obtain ⟨p, _, hrow⟩ := hrow
    simp only [InventoryOptimizer.productRow] at hrow
    split at hrow
    · cases hrow
    · simp only [List.mem_singleton] at hrow
      subst hrow
      have hnone' : InventoryOptimizer.invLookup inventory p.id = none := hnone
      have hstock : InventoryOptimizer.stockOf inventory p.id = 0 := by
        rw [InventoryOptimizer.stockOf, hnone']
      constructor
      · simp only
        rw [if_neg (by rintro ⟨-, hlt⟩; rw [hstock] at hlt; exact lt_irrefl 0 hlt),
            if_pos (by rw [hstock]), round4_one]
      · simp only
        rw [if_pos (by rw [hstock])]
        exact criticalHeadsRecommendation _ _

unseal Rat.add Rat.sub Rat.mul Rat.inv in
/-- Witness for C10: a 2-month history, a catalog with a transacting
product and one with no transactions and no inventory record. -/
theorem claim_C10_witness :
    2 ≤ (InventoryOptimizer.allMonthsOf InventoryOptimizer.c4txns).length
    ∧ ((InventoryOptimizer.optimizeInventory InventoryOptimizer.oracleZero
          InventoryOptimizer.oracleOne InventoryOptimizer.sdZero InventoryOptimizer.c4txns
          InventoryOptimizer.c10prods InventoryOptimizer.c4inv).map
            (fun r => r.product_id)
          = InventoryOptimizer.c10prods.map InventoryOptimizer.Product.id
      ∧ ∀ row ∈ InventoryOptimizer.optimizeInventory InventoryOptimizer.oracleZero
            InventoryOptimizer.oracleOne InventoryOptimizer.sdZero InventoryOptimizer.c4txns
            InventoryOptimizer.c10prods InventoryOptimizer.c4inv,
          InventoryOptimizer.invLookup InventoryOptimizer.c4inv row.product_id = none →
            row.stockout_probability = 1
            ∧ ("CRITICAL" : String).data <+: row.recommendation.data) :=
  ⟨by decide,
   claim_C10_catalog_coverage InventoryOptimizer.oracleZero InventoryOptimizer.oracleOne
     InventoryOptimizer.sdZero InventoryOptimizer.c4txns InventoryOptimizer.c10prods
     InventoryOptimizer.c4inv (by decide)⟩
